import Mathlib

/-!
Shallow embedding of the mod-state synchronization and caching core of
FOSSModManager-MHW (frontend orchestration logic in
`src/components/MainContent.jsx` and `src/components/SkinMods.jsx`).

External collaborators (the Tauri Registry Service and Image Service
commands reached through `invoke`) are modelled as oracles: a call that can
reject is a value of `Except String _` (the `.error` payload is the thrown
error, which the frontend always coerces to a string), and a call that can
resolve with `null` carries an `Option`.  The React `useState` cells touched
by each handler are gathered into explicit state structures; each handler
becomes a pure function from oracles and pre-state to post-state, plus logs
of the observable external calls the claims quantify over (refresh
invocations, direct image reads, listing attempts).  JavaScript object maps
(`imageData`, `cachedImageRefs`, the bulk-cache response) are association
lists with key-replacing assignment, and JavaScript truthiness of a
string-or-absent value is `none`/`""` ↦ false.
-/

/-- JS object read `m[k]`: value of the first (unique) binding of `k`. -/
def mapGet : List (String × String) → String → Option String
  | [], _ => none
  | (k, v) :: rest, key => if k = key then some v else mapGet rest key

/-- JS object assignment `m[k] = v`: replace the binding of `k`, or append it. -/
def mapSet : List (String × String) → String → String → List (String × String)
  | [], key, val => [(key, val)]
  | (k, v) :: rest, key, val =>
    if k = key then (key, val) :: rest else (k, v) :: mapSet rest key val

/-- JS truthiness of `m[k]`: `undefined` and `""` are falsy. -/
def truthyGet (m : List (String × String)) (key : String) : Option String :=
  match mapGet m key with
  | some v => if v = "" then none else some v
  | none => none

/-- JS truthiness of a nullable string (`null`/`undefined` and `""` are falsy). -/
def optTruthy : Option String → Bool
  | none => false
  | some s => decide (s ≠ "")

/-- JS `String.prototype.lastIndexOf` for a single character, on the char list
of the string: index of the last occurrence, or `-1`. -/
def lastIndexOf : List Char → Char → Int
  | [], _ => -1
  | x :: xs, c =>
    let r := lastIndexOf xs c
    if r ≥ 0 then r + 1 else if x = c then 0 else -1

/-- `getFilename` (MainContent.jsx): final filename component of a path.
`if (!fullPath) return 'unknown file'`; otherwise take the suffix after the
greater of the last `/` and the last `\` index, or the whole path if neither
occurs. -/
def getFilename (fullPath : String) : String :=
  if fullPath = "" then "unknown file"
  else
    let lastSlash := lastIndexOf fullPath.toList '/'
    let lastBackslash := lastIndexOf fullPath.toList '\\'
    let lastSeparator := max lastSlash lastBackslash
    if lastSeparator = -1 then fullPath
    else String.mk (fullPath.toList.drop (lastSeparator + 1).toNat)

/-- Archive-mod record as consumed by MainContent.jsx (`mod.directory_name`,
`mod.name`, `mod.enabled`); the remaining attributes the UI reads are not
touched by any claim and are omitted from the projection. -/
structure ModRecord where
  directory_name : String
  name : Option String
  enabled : Bool
  deriving Repr, DecidableEq

/-- The MainContent state cells driven by `fetchMods`. -/
structure MainState where
  installedMods : List ModRecord
  isModsLoading : Bool
  modsError : Option String
  deriving Repr, DecidableEq

/-- `fetchMods` (MainContent.jsx): guard on a falsy `gameRootPath`; set
loading, clear the error, await `list_mods`; on success store `mods || []`;
on a thrown error set `modsError` and reset `installedMods` to `[]`; finally
clear loading.  (The best-effort `preloadModAssets` fire-and-forget touches
none of these cells and is omitted.) -/
def fetchMods (listMods : Except String (Option (List ModRecord)))
    (gameRootPath : String) (s : MainState) : MainState :=
  if gameRootPath = "" then s
  else
    match listMods with
    | .ok mods =>
      { installedMods := mods.getD [], isModsLoading := false, modsError := none }
    | .error err =>
      { installedMods := [],
        isModsLoading := false,
        modsError := some ("Failed to load mods list: " ++ err) }

/-- One `InstallationOutcome`: the value each install promise resolves with
(`{ path, success }` or `{ path, success: false, error }`). -/
structure InstallOutcome where
  path : String
  success : Bool
  error : Option String
  deriving Repr, DecidableEq

/-- Body of one install promise in `handleInstallModFromZip`: the
`install_mod_from_zip` call for `zipPath`, with its own try/catch, so the
promise always fulfills with an outcome record. -/
def installOutcome (install : String → Except String Unit) (zipPath : String) :
    InstallOutcome :=
  match install zipPath with
  | .ok _ => { path := zipPath, success := true, error := none }
  | .error err => { path := zipPath, success := false, error := some err }

/-- The user-visible message each install promise emits: `message.success`
text on success, the `notification.error` description on failure (both built
from `getFilename(zipPath)`). -/
def installReportText (install : String → Except String Unit) (zipPath : String) :
    String :=
  match install zipPath with
  | .ok _ => "Successfully installed mod from " ++ getFilename zipPath
  | .error err =>
    "Failed to install mod from " ++ getFilename zipPath ++ ": " ++ err

/-- The settled outcome list of one batch: one promise per selected path,
none of which can reject (settle-all; `Promise.allSettled` reports every one
as fulfilled). -/
def batchOutcomes (install : String → Except String Unit) (paths : List String) :
    List InstallOutcome :=
  paths.map (installOutcome install)

/-- `handleInstallModFromZip` (MainContent.jsx), from the point where the
file dialog has resolved: `selectedPaths` is `none` when the dialog was
cancelled (`null`).  Returns the settled outcomes together with the number of
`fetchMods` refresh calls the handler issues afterwards: one iff
`results.some(r => r.status === 'fulfilled' && r.value.success)`.  The
progress `Channel` only logs events and is omitted. -/
def handleInstallModFromZip (install : String → Except String Unit)
    (selectedPaths : Option (List String)) : List InstallOutcome × Nat :=
  match selectedPaths with
  | none => ([], 0)
  | some paths =>
    if paths.length > 0 then
      let results := batchOutcomes install paths
      (results, if results.any (fun o => o.success) then 1 else 0)
    else ([], 0)

/-- `handleToggleMod` (MainContent.jsx) for archive mods: invoke
`toggle_mod_enabled_state`; on success show a message and call `fetchMods`
(one refresh); on error only show the error message.  No local mutation of
`installedMods` happens in either branch.  Returns the unchanged state, the
number of refreshes, and the error text surfaced (if any). -/
def handleToggleMod (svc : Except String Unit) (gameRootPath : String)
    (s : MainState) : MainState × Nat × Option String :=
  if gameRootPath = "" then (s, 0, some "Game config not loaded.")
  else
    match svc with
    | .ok _ => (s, 1, none)
    | .error err => (s, 0, some err)

/-- The nested sub-record a skin record's optimistic toggle writes through
(`{ ...m.base, enabled: enable }`); only `enabled` is ever consulted. -/
structure SkinBase where
  enabled : Bool
  deriving Repr, DecidableEq

/-- Skin-mod record as consumed by SkinMods.jsx.  `path` is the identity key;
the flat `enabled` field is what the rendering and the toggle badge read
(`mod.enabled`), while `base` is the nested sub-record the optimistic update
writes.  `thumbnail_path` is `none` when absent; other displayed attributes
are untouched by the claims and omitted. -/
structure SkinRecord where
  path : String
  name : Option String
  enabled : Bool
  base : SkinBase
  thumbnail_path : Option String
  deriving Repr, DecidableEq

/-- The two image-cache cells of SkinMods.jsx: the `imageData` state (warm
tier, replaced wholesale by each `loadModImages`) and the `cachedImageRefs`
ref (session tier, survives re-renders). -/
structure ImgState where
  imageData : List (String × String)
  cachedImageRefs : List (String × String)
  deriving Repr, DecidableEq

/-- First loop of `loadModImages`: walk the mod list; skip mods with a falsy
`thumbnail_path`; serve a path from the warm tier (`imageData`) first, then
from the session tier (`cachedImageRefs`), else push it onto `toLoadPaths`.
Both tiers are consulted in their pre-call state throughout the walk. -/
def collectImages (imageData cachedRefs : List (String × String)) :
    List SkinRecord → List (String × String) → List String →
    List (String × String) × List String
  | [], newImages, toLoad => (newImages, toLoad)
  | mod :: rest, newImages, toLoad =>
    match mod.thumbnail_path with
    | none => collectImages imageData cachedRefs rest newImages toLoad
    | some p =>
      if p = "" then collectImages imageData cachedRefs rest newImages toLoad
      else
        match truthyGet imageData p with
        | some v => collectImages imageData cachedRefs rest (mapSet newImages p v) toLoad
        | none =>
          match truthyGet cachedRefs p with
          | some v =>
            collectImages imageData cachedRefs rest (mapSet newImages p v) toLoad
          | none => collectImages imageData cachedRefs rest newImages (toLoad ++ [p])

/-- Bulk-tier loop of `loadModImages`: for each key of the
`get_cached_mod_images` response with a truthy value, store the
base64-prefixed payload in `newImages` and in the session tier, and splice
the first occurrence of the key out of `toLoadPaths`. -/
def applyCachedImages :
    List (String × String) → List (String × String) → List (String × String) →
    List String →
    List (String × String) × List (String × String) × List String
  | [], newImages, cachedRefs, toLoad => (newImages, cachedRefs, toLoad)
  | (path, v) :: rest, newImages, cachedRefs, toLoad =>
    if v = "" then applyCachedImages rest newImages cachedRefs toLoad
    else
      applyCachedImages rest
        (mapSet newImages path ("data:image/png;base64," ++ v))
        (mapSet cachedRefs path ("data:image/png;base64," ++ v))
        (toLoad.erase path)

/-- Direct-tier loop of `loadModImages`: for each remaining path invoke
`read_mod_image` (the invocation is appended to the read log); a truthy
result is stored in `newImages` and the session tier; a falsy result or a
thrown error is logged and the loop continues with the next path.  The
best-effort `cache_mod_image` write-back has its rejection swallowed and
touches no frontend state, so it is not modelled. -/
def loadRemaining (readImage : String → Except String (Option String)) :
    List String → List (String × String) → List (String × String) →
    List String →
    List (String × String) × List (String × String) × List String
  | [], newImages, cachedRefs, log => (newImages, cachedRefs, log)
  | path :: rest, newImages, cachedRefs, log =>
    match readImage path with
    | .ok (some img) =>
      if img = "" then loadRemaining readImage rest newImages cachedRefs (log ++ [path])
      else
        loadRemaining readImage rest
          (mapSet newImages path ("data:image/png;base64," ++ img))
          (mapSet cachedRefs path ("data:image/png;base64," ++ img))
          (log ++ [path])
    | .ok none => loadRemaining readImage rest newImages cachedRefs (log ++ [path])
    | .error _ => loadRemaining readImage rest newImages cachedRefs (log ++ [path])

/-- The `get_cached_mod_images` call guarded by `.catch(() => ({}))`: a
rejection degrades to an empty response instead of propagating. -/
def bulkResponse (bulk : List String → Except String (List (String × String)))
    (qs : List String) : List (String × String) :=
  match bulk qs with
  | .ok m => m
  | .error _ => []

/-- `loadModImages` (SkinMods.jsx), assembled from the three tier loops
above.  `bulk` is `get_cached_mod_images`; `readImage` is `read_mod_image`
(resolving `null` is falsy).  Returns the new image state — `imageData` is
replaced by the freshly built `newImages` map in every exit path — and the
ordered log of `read_mod_image` invocations. -/
def loadModImages (bulk : List String → Except String (List (String × String)))
    (readImage : String → Except String (Option String))
    (s : ImgState) (mods : List SkinRecord) : ImgState × List String :=
  let scanned := collectImages s.imageData s.cachedImageRefs mods [] []
  if scanned.2 = [] then ({ imageData := scanned.1, cachedImageRefs := s.cachedImageRefs }, [])
  else
    let bulked :=
      applyCachedImages (bulkResponse bulk scanned.2) scanned.1 s.cachedImageRefs scanned.2
    let direct := loadRemaining readImage bulked.2.2 bulked.1 bulked.2.1 []
    ({ imageData := direct.1, cachedImageRefs := direct.2.1 }, direct.2.2)

/-- The SkinMods state cells the claims are about. -/
structure SkinState where
  skinMods : List SkinRecord
  loading : Bool
  error : Option String
  img : ImgState
  deriving Repr, DecidableEq

/-- Log of the external calls one `fetchSkinMods` run performs: whether the
`list_skin_mods_from_registry` listing was attempted, and the
`read_mod_image` invocations of the image-loading phase. -/
structure FetchLog where
  listingAttempted : Bool
  readLog : List String
  deriving Repr, DecidableEq

/-- `fetchSkinMods` (SkinMods.jsx): guard on falsy `gameRoot`; set loading
and clear the error; inside one shared try block, await
`scan_and_update_skin_mods` (its resolved value is never read, so the oracle
payload is `Unit`), then await `list_skin_mods_from_registry`, store
`installedMods || []`, and await `loadModImages` on it; the single catch
stores the thrown error string and leaves `skinMods` untouched; finally clear
loading. -/
def fetchSkinMods (scan : Except String Unit)
    (listSkins : Except String (Option (List SkinRecord)))
    (bulk : List String → Except String (List (String × String)))
    (readImage : String → Except String (Option String))
    (gameRoot : String) (s : SkinState) : SkinState × FetchLog :=
  if gameRoot = "" then (s, { listingAttempted := false, readLog := [] })
  else
    match scan with
    | .error err =>
      ({ s with loading := false, error := some err },
       { listingAttempted := false, readLog := [] })
    | .ok _ =>
      match listSkins with
      | .error err =>
        ({ s with loading := false, error := some err },
         { listingAttempted := true, readLog := [] })
      | .ok installedMods =>
        let mods := installedMods.getD []
        let loaded := loadModImages bulk readImage s.img mods
        ({ skinMods := mods, loading := false, error := none, img := loaded.1 },
         { listingAttempted := true, readLog := loaded.2 })

/-- What one `toggleModEnabled` run produces: the `skinMods` cell after the
run settles, the snapshot it held between the synchronous optimistic update
and the service call (phase 1), the error surfaced (if any), and the number
of `fetchSkinMods` refresh calls issued. -/
structure ToggleResult where
  skinMods : List SkinRecord
  phase1Mods : List SkinRecord
  notifiedError : Option String
  refreshCount : Nat
  deriving Repr, DecidableEq

/-- The optimistic mutation of `toggleModEnabled`: map over the snapshot and
rebuild the record whose `path` matches as `{ ...m, base: { ...m.base,
enabled: enable } }` — the nested `base.enabled` is written; the flat
`enabled` field is spread through unchanged. -/
def optimisticUpdate (mods : List SkinRecord) (modPath : String) (enable : Bool) :
    List SkinRecord :=
  mods.map fun m =>
    if m.path = modPath then { m with base := { m.base with enabled := enable } } else m

/-- `toggleModEnabled` (SkinMods.jsx): guard on falsy `gameRoot`; back up the
snapshot, apply the optimistic update, then await the
`enable_skin_mod_via_registry` / `disable_skin_mod_via_registry` call (the
oracle takes the enable flag and the mod path).  On success, notify and call
`fetchSkinMods` (one refresh).  On error, notify the error, revert the
snapshot to the backup, and still call `fetchSkinMods` (one refresh). -/
def toggleModEnabled (svc : Bool → String → Except String Unit)
    (gameRoot : String) (skinMods : List SkinRecord) (mod : SkinRecord)
    (enable : Bool) : ToggleResult :=
  if gameRoot = "" then
    { skinMods := skinMods, phase1Mods := skinMods,
      notifiedError := some "Game root directory is not set", refreshCount := 0 }
  else
    let modPath := mod.path
    let originalMods := skinMods
    let updated := optimisticUpdate skinMods modPath enable
    match svc enable modPath with
    | .ok _ =>
      { skinMods := updated, phase1Mods := updated,
        notifiedError := none, refreshCount := 1 }
    | .error err =>
      { skinMods := originalMods, phase1Mods := updated,
        notifiedError := some err, refreshCount := 1 }

/-! ### Concrete fixtures used by counterexamples and witnesses -/

/-- An archive mod present in the mirror before a failing refresh. -/
def modA : ModRecord :=
  { directory_name := "ExistingMod", name := some "Existing Mod", enabled := true }

/-- A second archive mod sharing `modA`'s identity key. -/
def modB : ModRecord :=
  { directory_name := "ExistingMod", name := some "Impostor", enabled := false }

/-- A MainContent state holding one mod and no error. -/
def mainState1 : MainState :=
  { installedMods := [modA], isModsLoading := false, modsError := none }

/-- A skin record with the flat `enabled` field false and `base.enabled` false. -/
def skinRec1 : SkinRecord :=
  { path := "mods/skinA", name := some "Skin A", enabled := false,
    base := { enabled := false }, thumbnail_path := none }

/-- A skin record sharing `skinRec1`'s identity key. -/
def skinRec2 : SkinRecord :=
  { path := "mods/skinA", name := some "Skin A copy", enabled := true,
    base := { enabled := true }, thumbnail_path := none }

/-- A skin mod whose thumbnail is `thumb-a`. -/
def skinThumb1 : SkinRecord :=
  { path := "mods/t1", name := none, enabled := true,
    base := { enabled := true }, thumbnail_path := some "thumb-a" }

/-- A different skin mod referencing the same thumbnail path `thumb-a`. -/
def skinThumb2 : SkinRecord :=
  { path := "mods/t2", name := none, enabled := true,
    base := { enabled := true }, thumbnail_path := some "thumb-a" }

/-- A skin mod whose thumbnail is `thumb-b`. -/
def skinThumbB : SkinRecord :=
  { path := "mods/t3", name := none, enabled := true,
    base := { enabled := true }, thumbnail_path := some "thumb-b" }

/-- A read oracle whose decode of `thumb-a` fails while every other path
succeeds. -/
def readFail1 : String → Except String (Option String) :=
  fun p => if p = "thumb-a" then .error "decode failure" else .ok (some ("img-" ++ p))

/-- A SkinMods state holding one skin and empty image caches. -/
def skinState1 : SkinState :=
  { skinMods := [skinRec1], loading := false, error := none,
    img := { imageData := [], cachedImageRefs := [] } }

/-- An install oracle that rejects exactly the archive `dir/bad.zip`. -/
def inst1 : String → Except String Unit :=
  fun p => if p = "dir/bad.zip" then .error "corrupt archive" else .ok ()

/-! ### Helper lemmas -/

theorem installOutcome_path (f : String → Except String Unit) (p : String) :
    (installOutcome f p).path = p := by
  unfold installOutcome
  cases f p <;> rfl

theorem installOutcome_success (f : String → Except String Unit) (p : String) :
    (installOutcome f p).success = true ↔ f p = .ok () := by
  unfold installOutcome
  cases hf : f p with
  | ok u => cases u; simp
  | error e => simp

theorem mapGet_mapSet_self (m : List (String × String)) (k v : String) :
    mapGet (mapSet m k v) k = some v := by
  induction m with
  | nil => simp [mapSet, mapGet]
  | cons kv rest ih =>
    by_cases hk : kv.1 = k
    · simp [mapSet, hk, mapGet]
    · simp [mapSet, hk, mapGet, ih]

theorem mapGet_mapSet_ne (m : List (String × String)) (k v key : String)
    (hne : k ≠ key) : mapGet (mapSet m k v) key = mapGet m key := by
  induction m with
  | nil => simp [mapSet, mapGet, hne]
  | cons kv rest ih =>
    by_cases hk : kv.1 = k
    · simp [mapSet, hk, mapGet, hne, ih]
    · simp [mapSet, hk, mapGet, ih]

theorem collectImages_toLoad_mem (d c : List (String × String)) (p : String)
    (mods : List SkinRecord) :
    ∀ (ni : List (String × String)) (tl : List String),
      p ∈ (collectImages d c mods ni tl).2 →
      p ∈ tl ∨ (truthyGet d p = none ∧ truthyGet c p = none) := by
  induction mods with
  | nil => intro ni tl h; exact Or.inl h
  | cons mod rest ih =>
    intro ni tl h
    unfold collectImages at h
    split at h
    · exact ih ni tl h
    · rename_i q hm
      split at h
      · exact ih ni tl h
      · rename_i hq
        split at h
        · exact ih _ _ h
        · rename_i hd
          split at h
          · exact ih _ _ h
          · rename_i hc
            rcases ih _ _ h with hin | hnone
            · rcases List.mem_append.1 hin with h1 | h2
              · exact Or.inl h1
              · have hpq : p = q := List.mem_singleton.1 h2
                subst hpq
                exact Or.inr ⟨hd, hc⟩
            · exact Or.inr hnone

theorem applyCachedImages_toLoad_subset (p : String) :
    ∀ (entries ni cr : List (String × String)) (tl : List String),
      p ∈ (applyCachedImages entries ni cr tl).2.2 → p ∈ tl := by
  intro entries
  induction entries with
  | nil => intro ni cr tl h; exact h
  | cons kv rest ih =>
    intro ni cr tl h
    unfold applyCachedImages at h
    split at h
    · exact ih _ _ _ h
    · exact List.mem_of_mem_erase (ih _ _ _ h)

theorem applyCachedImages_preserves (p : String) :
    ∀ (entries ni cr : List (String × String)) (tl : List String),
      (∀ kv ∈ entries, kv.1 ≠ p) →
      mapGet (applyCachedImages entries ni cr tl).2.1 p = mapGet cr p := by
  intro entries
  induction entries with
  | nil => intro ni cr tl _; rfl
  | cons kv rest ih =>
    intro ni cr tl hk
    unfold applyCachedImages
    split
    · exact ih _ _ _ (fun e he => hk e (List.mem_cons_of_mem kv he))
    · rw [ih _ _ _ (fun e he => hk e (List.mem_cons_of_mem kv he))]
      exact mapGet_mapSet_ne _ _ _ _ (hk kv (List.mem_cons_self kv rest))

theorem loadRemaining_log (r : String → Except String (Option String)) :
    ∀ (tl : List String) (ni cr : List (String × String)) (log : List String),
      (loadRemaining r tl ni cr log).2.2 = log ++ tl := by
  intro tl
  induction tl with
  | nil => intro ni cr log; simp [loadRemaining]
  | cons path rest ih =>
    intro ni cr log
    unfold loadRemaining
    split
    · split
      · rw [ih]; simp
      · rw [ih]; simp
    · rw [ih]; simp
    · rw [ih]; simp

theorem loadRemaining_preserves (r : String → Except String (Option String)) (p : String) :
    ∀ (tl : List String) (ni cr : List (String × String)) (log : List String),
      p ∉ tl →
      mapGet (loadRemaining r tl ni cr log).1 p = mapGet ni p ∧
      mapGet (loadRemaining r tl ni cr log).2.1 p = mapGet cr p := by
  intro tl
  induction tl with
  | nil => intro ni cr log _; exact ⟨rfl, rfl⟩
  | cons path rest ih =>
    intro ni cr log hp
    have hne : path ≠ p := fun he => hp (he ▸ List.mem_cons_self path rest)
    have hrest : p ∉ rest := fun he => hp (List.mem_cons_of_mem path he)
    unfold loadRemaining
    split
    · rename_i img heq
      split
      · exact ih _ _ _ hrest
      · rcases ih (mapSet ni path ("data:image/png;base64," ++ img))
          (mapSet cr path ("data:image/png;base64," ++ img)) (log ++ [path]) hrest with ⟨h1, h2⟩
        exact ⟨by rw [h1, mapGet_mapSet_ne _ _ _ _ hne],
               by rw [h2, mapGet_mapSet_ne _ _ _ _ hne]⟩
    · exact ih _ _ _ hrest
    · exact ih _ _ _ hrest

theorem loadRemaining_writes (r : String → Except String (Option String)) (p w : String)
    (hr : r p = .ok (some w)) (hw : w ≠ "") :
    ∀ (tl : List String) (ni cr : List (String × String)) (log : List String),
      p ∈ tl →
      mapGet (loadRemaining r tl ni cr log).1 p = some ("data:image/png;base64," ++ w) ∧
      mapGet (loadRemaining r tl ni cr log).2.1 p = some ("data:image/png;base64," ++ w) := by
  intro tl
  induction tl with
  | nil => intro ni cr log h; exact absurd h (List.not_mem_nil p)
  | cons path rest ih =>
    intro ni cr log hp
    by_cases hpath : path = p
    · subst hpath
      unfold loadRemaining
      split
      · rename_i img heq
        rw [hr] at heq
        have himg : w = img := by
          injection heq with h1
          injection h1
        subst himg
        rw [if_neg hw]
        by_cases hrest : path ∈ rest
        · exact ih _ _ _ hrest
        · rcases loadRemaining_preserves r path rest
            (mapSet ni path ("data:image/png;base64," ++ w))
            (mapSet cr path ("data:image/png;base64," ++ w)) (log ++ [path]) hrest with ⟨h1, h2⟩
          exact ⟨by rw [h1, mapGet_mapSet_self],
                 by rw [h2, mapGet_mapSet_self]⟩
      · rename_i heq
        rw [hr] at heq
        exact absurd heq (fun h => by injection h with h1; exact Option.noConfusion h1)
      · rename_i e heq
        rw [hr] at heq
        exact Except.noConfusion heq
    · have hrest : p ∈ rest := by
        rcases List.mem_cons.1 hp with h1 | h2
        · exact absurd h1.symm hpath
        · exact h2
      unfold loadRemaining
      split
      · split
        · exact ih _ _ _ hrest
        · exact ih _ _ _ hrest
      · exact ih _ _ _ hrest
      · exact ih _ _ _ hrest

/-! ### Claim theorems -/

/-- C1, counterexample: a failing `list_mods` call does not leave the previous
snapshot in place — `fetchMods` resets `installedMods` to `[]` in its catch
branch, so the claim as stated is false at this concrete input. -/
theorem fetchMods_clears_on_error_cex :
    mainState1.installedMods = [modA] ∧
    (fetchMods (.error "network error") "C:\\game" mainState1).installedMods = [] ∧
    (fetchMods (.error "network error") "C:\\game" mainState1).installedMods ≠
      mainState1.installedMods := by decide

/-- C1, amended: when the listing call fails, `fetchSkinMods` preserves the
previous skin snapshot and surfaces the error, while `fetchMods` surfaces the
error (from which the retry affordance is rendered) but clears the archive-mod
list to `[]` instead of preserving it. -/
theorem refresh_failure_behavior (gameRoot : String) (hroot : gameRoot ≠ "")
    (err : String)
    (bulk : List String → Except String (List (String × String)))
    (readImage : String → Except String (Option String))
    (s : SkinState) (ms : MainState) :
    (fetchSkinMods (.ok ()) (.error err) bulk readImage gameRoot s).1.skinMods =
      s.skinMods ∧
    (fetchSkinMods (.ok ()) (.error err) bulk readImage gameRoot s).1.error = some err ∧
    (fetchMods (.error err) gameRoot ms).installedMods = [] ∧
    (fetchMods (.error err) gameRoot ms).modsError =
      some ("Failed to load mods list: " ++ err) := by
  simp [fetchSkinMods, fetchMods, hroot]

theorem refresh_failure_behavior_witness :
    (fetchSkinMods (.ok ()) (.error "io") (fun _ => .ok []) (fun _ => .ok none)
      "C:\\game" skinState1).1.skinMods = skinState1.skinMods ∧
    (fetchSkinMods (.ok ()) (.error "io") (fun _ => .ok []) (fun _ => .ok none)
      "C:\\game" skinState1).1.error = some "io" ∧
    (fetchMods (.error "io") "C:\\game" mainState1).installedMods = [] ∧
    (fetchMods (.error "io") "C:\\game" mainState1).modsError =
      some ("Failed to load mods list: " ++ "io") :=
  refresh_failure_behavior "C:\\game" (by decide) "io" (fun _ => .ok [])
    (fun _ => .ok none) skinState1 mainState1

/-- C2: after a batch of N ≥ 1 archive paths settles,
`handleInstallModFromZip` triggers exactly one `fetchMods` refresh if at least
one install succeeded, and no refresh if all installs failed. -/
theorem installBatch_single_refresh (install : String → Except String Unit)
    (paths : List String) (hne : paths ≠ []) :
    ((∃ p ∈ paths, install p = .ok ()) →
      (handleInstallModFromZip install (some paths)).2 = 1) ∧
    ((∀ p ∈ paths, install p ≠ .ok ()) →
      (handleInstallModFromZip install (some paths)).2 = 0) := by
  have hlen : 0 < paths.length := List.length_pos.2 hne
  have hany : (batchOutcomes install paths).any (fun o => o.success) = true ↔
      ∃ p ∈ paths, install p = .ok () := by
    rw [batchOutcomes, List.any_eq_true]
    constructor
    · rintro ⟨o, ho, hs⟩
      rcases List.mem_map.1 ho with ⟨p, hp, rfl⟩
      exact ⟨p, hp, (installOutcome_success install p).1 hs⟩
    · rintro ⟨p, hp, hs⟩
      exact ⟨installOutcome install p, List.mem_map_of_mem _ hp,
        (installOutcome_success install p).2 hs⟩
  constructor
  · intro hex
    simp only [handleInstallModFromZip, if_pos hlen]
    rw [if_pos (hany.2 hex)]
  · intro hall
    simp only [handleInstallModFromZip, if_pos hlen]
    rw [if_neg]
    intro hcontra
    rcases hany.1 hcontra with ⟨p, hp, hs⟩
    exact hall p hp hs

theorem installBatch_single_refresh_witness :
    (handleInstallModFromZip inst1 (some ["a.zip", "dir/bad.zip"])).2 = 1 ∧
    (handleInstallModFromZip (fun _ => .error "bad") (some ["a.zip"])).2 = 0 :=
  ⟨(installBatch_single_refresh inst1 ["a.zip", "dir/bad.zip"] (by decide)).1
      ⟨"a.zip", by decide, by rfl⟩,
   (installBatch_single_refresh (fun _ => .error "bad") ["a.zip"] (by decide)).2
      (by intro p hp h; exact Except.noConfusion h)⟩

/-- C3: when the registry call of `toggleModEnabled` fails, the snapshot is
reverted to its pre-call value after settling (hence `enabled` of every record
equals its pre-call value), the error is surfaced, and one refresh is still
performed. -/
theorem toggle_failure_reverts (svc : Bool → String → Except String Unit)
    (gameRoot : String) (hroot : gameRoot ≠ "")
    (mods : List SkinRecord) (mod : SkinRecord) (enable : Bool) (err : String)
    (hsvc : svc enable mod.path = .error err) :
    (toggleModEnabled svc gameRoot mods mod enable).skinMods = mods ∧
    (toggleModEnabled svc gameRoot mods mod enable).notifiedError = some err ∧
    (toggleModEnabled svc gameRoot mods mod enable).refreshCount = 1 := by
  simp [toggleModEnabled, hroot, hsvc]

theorem toggle_failure_reverts_witness :
    (toggleModEnabled (fun _ _ => .error "denied") "g" [skinRec1] skinRec1 true).skinMods
      = [skinRec1] ∧
    (toggleModEnabled (fun _ _ => .error "denied") "g" [skinRec1] skinRec1 true).notifiedError
      = some "denied" ∧
    (toggleModEnabled (fun _ _ => .error "denied") "g" [skinRec1] skinRec1 true).refreshCount
      = 1 :=
  toggle_failure_reverts (fun _ _ => .error "denied") "g" (by decide)
    [skinRec1] skinRec1 true "denied" rfl

/-- C4, the code evaluated at the failing input: phase 1 of
`toggleModEnabled` writes the nested `base.enabled` field and leaves the flat
`enabled` field — the one the snapshot reports — unchanged at `false` rather
than the requested `true`; and the archive-mod toggle `handleToggleMod`
performs no phase-1 mutation at all. -/
theorem toggle_optimistic_wrong_field :
    (toggleModEnabled (fun _ _ => .ok ()) "g" [skinRec1] skinRec1 true).phase1Mods =
      [{ skinRec1 with base := { enabled := true } }] ∧
    ((toggleModEnabled (fun _ _ => .ok ()) "g" [skinRec1] skinRec1 true).phase1Mods.map
      (fun m => m.enabled)) = [false] ∧
    (handleToggleMod (.ok ()) "g" mainState1).1 = mainState1 := by decide

/-- C5: the settled batch carries exactly one outcome per submitted path, in
order; each outcome is a function of its own path's install result alone (two
oracles agreeing on that path yield the same outcome), and a failure's report
names the offending path's final filename component. -/
theorem installBatch_isolation (install install2 : String → Except String Unit)
    (paths : List String) :
    (batchOutcomes install paths).map InstallOutcome.path = paths ∧
    (∀ o ∈ batchOutcomes install paths, o = installOutcome install o.path) ∧
    (∀ p, install p = install2 p →
      installOutcome install p = installOutcome install2 p) ∧
    (∀ p err, p ∈ paths → install p = .error err →
      installReportText install p =
        "Failed to install mod from " ++ getFilename p ++ ": " ++ err) := by
  refine ⟨?_, ?_, ?_, ?_⟩
  · rw [batchOutcomes, List.map_map]
    have hcomp : InstallOutcome.path ∘ installOutcome install = id :=
      funext (fun p => installOutcome_path install p)
    rw [hcomp, List.map_id]
  · intro o ho
    rcases List.mem_map.1 ho with ⟨p, hp, rfl⟩
    rw [installOutcome_path]
  · intro p h
    unfold installOutcome
    rw [h]
  · intro p err hp herr
    unfold installReportText
    rw [herr]

theorem installBatch_isolation_witness :
    installReportText inst1 "dir/bad.zip" =
      "Failed to install mod from " ++ getFilename "dir/bad.zip" ++ ": " ++
        "corrupt archive" ∧
    (batchOutcomes inst1 ["ok.zip", "dir/bad.zip"]).map InstallOutcome.path =
      ["ok.zip", "dir/bad.zip"] :=
  ⟨(installBatch_isolation inst1 inst1 ["ok.zip", "dir/bad.zip"]).2.2.2
      "dir/bad.zip" "corrupt archive" (by decide) (by rfl),
   (installBatch_isolation inst1 inst1 ["ok.zip", "dir/bad.zip"]).1⟩

/-- C6, counterexample: when `scan_and_update_skin_mods` rejects, the
subsequent `list_skin_mods_from_registry` call is not attempted — refuting the
claim that the listing still happens. -/
theorem scan_failure_skips_listing_cex :
    (fetchSkinMods (.error "scan failed") (.ok (some []))
      (fun _ => .ok []) (fun _ => .ok none) "g" skinState1).2.listingAttempted = false ∧
    (fetchSkinMods (.error "scan failed") (.ok (some []))
      (fun _ => .ok []) (fun _ => .ok none) "g" skinState1).1.error =
      some "scan failed" := by decide

/-- C6, amended: a reconciliation failure aborts the shared try block: the
listing call is not attempted, the reconciliation error is surfaced through
the same error path a listing error would use, and the previous skin list is
preserved. -/
theorem scan_failure_behavior (scanErr : String)
    (listSkins : Except String (Option (List SkinRecord)))
    (bulk : List String → Except String (List (String × String)))
    (readImage : String → Except String (Option String))
    (gameRoot : String) (hroot : gameRoot ≠ "") (s : SkinState) :
    (fetchSkinMods (.error scanErr) listSkins bulk readImage gameRoot s).2.listingAttempted
      = false ∧
    (fetchSkinMods (.error scanErr) listSkins bulk readImage gameRoot s).1.error
      = some scanErr ∧
    (fetchSkinMods (.error scanErr) listSkins bulk readImage gameRoot s).1.skinMods
      = s.skinMods := by
  simp [fetchSkinMods, hroot]

theorem scan_failure_behavior_witness :
    (fetchSkinMods (.error "scan failed") (.ok (some []))
      (fun _ => .ok []) (fun _ => .ok none) "root" skinState1).2.listingAttempted = false ∧
    (fetchSkinMods (.error "scan failed") (.ok (some []))
      (fun _ => .ok []) (fun _ => .ok none) "root" skinState1).1.error =
      some "scan failed" ∧
    (fetchSkinMods (.error "scan failed") (.ok (some []))
      (fun _ => .ok []) (fun _ => .ok none) "root" skinState1).1.skinMods =
      skinState1.skinMods :=
  scan_failure_behavior "scan failed" (.ok (some [])) (fun _ => .ok [])
    (fun _ => .ok none) "root" (by decide) skinState1

/-- C9, counterexample: a listing whose records share an identity key
(`path` for skins, `directory_name` for archive mods) is stored wholesale with
no error surfaced — refuting the detect-and-surface claim. -/
theorem duplicate_listing_cex :
    (fetchSkinMods (.ok ()) (.ok (some [skinRec1, skinRec2]))
      (fun _ => .ok []) (fun _ => .ok none) "g" skinState1).1.skinMods =
      [skinRec1, skinRec2] ∧
    (fetchSkinMods (.ok ()) (.ok (some [skinRec1, skinRec2]))
      (fun _ => .ok []) (fun _ => .ok none) "g" skinState1).1.error = none ∧
    skinRec1.path = skinRec2.path ∧
    (fetchMods (.ok (some [modA, modB])) "g" mainState1).installedMods = [modA, modB] ∧
    (fetchMods (.ok (some [modA, modB])) "g" mainState1).modsError = none ∧
    modA.directory_name = modB.directory_name := by decide

/-- C9, amended: the core performs no duplicate-identity detection: any
listing, including one with duplicate identity keys, replaces the mirror
unchanged (all records kept) and no data-integrity error is surfaced. -/
theorem duplicate_listing_kept (mods : List SkinRecord) (ams : List ModRecord)
    (bulk : List String → Except String (List (String × String)))
    (readImage : String → Except String (Option String))
    (gameRoot : String) (hroot : gameRoot ≠ "") (s : SkinState) (ms : MainState)
    (_hdupS : ¬ (mods.map SkinRecord.path).Nodup)
    (_hdupA : ¬ (ams.map ModRecord.directory_name).Nodup) :
    (fetchSkinMods (.ok ()) (.ok (some mods)) bulk readImage gameRoot s).1.skinMods =
      mods ∧
    (fetchSkinMods (.ok ()) (.ok (some mods)) bulk readImage gameRoot s).1.error =
      none ∧
    (fetchMods (.ok (some ams)) gameRoot ms).installedMods = ams ∧
    (fetchMods (.ok (some ams)) gameRoot ms).modsError = none := by
  simp [fetchSkinMods, fetchMods, hroot]

theorem duplicate_listing_kept_witness :
    (fetchSkinMods (.ok ()) (.ok (some [skinRec1, skinRec2]))
      (fun _ => .ok []) (fun _ => .ok none) "root" skinState1).1.skinMods =
      [skinRec1, skinRec2] ∧
    (fetchSkinMods (.ok ()) (.ok (some [skinRec1, skinRec2]))
      (fun _ => .ok []) (fun _ => .ok none) "root" skinState1).1.error = none ∧
    (fetchMods (.ok (some [modA, modB])) "root" mainState1).installedMods =
      [modA, modB] ∧
    (fetchMods (.ok (some [modA, modB])) "root" mainState1).modsError = none :=
  duplicate_listing_kept [skinRec1, skinRec2] [modA, modB] (fun _ => .ok [])
    (fun _ => .ok none) "root" (by decide) skinState1 mainState1 (by decide) (by decide)

theorem bulkResponse_ok (bulk : List String → Except String (List (String × String)))
    (qs : List String) (r : List (String × String)) (h : bulk qs = .ok r) :
    bulkResponse bulk qs = r := by
  simp [bulkResponse, h]

theorem bulkResponse_error (bulk : List String → Except String (List (String × String)))
    (qs : List String) (e : String) (h : bulk qs = .error e) :
    bulkResponse bulk qs = [] := by
  simp [bulkResponse, h]

theorem dataPayload_ne_empty (w : String) : ("data:image/png;base64," ++ w) ≠ "" := by
  intro h
  have hlen := congrArg String.length h
  rw [String.length_append] at hlen
  have h22 : ("data:image/png;base64," : String).length = 22 := by decide
  have h0 : ("" : String).length = 0 := by decide
  omega

/-- C7, counterexample: a single batch containing two mods with the same
thumbnail path issues two `read_mod_image` calls for that path even though the
first call succeeded — refuting the at-most-once-per-session claim. -/
theorem duplicate_thumbnail_double_read_cex :
    (loadModImages (fun _ => .ok []) (fun _ => .ok (some "XX"))
      { imageData := [], cachedImageRefs := [] } [skinThumb1, skinThumb2]).2 =
      ["thumb-a", "thumb-a"] ∧
    ¬ (((loadModImages (fun _ => .ok []) (fun _ => .ok (some "XX"))
      { imageData := [], cachedImageRefs := [] } [skinThumb1, skinThumb2]).2.count
        "thumb-a") ≤ 1) := by decide

/-- C7, amended: once a path is truthily present in the session tier
(`cachedImageRefs`), no resolve call invokes `read_mod_image` for it; and a
successful, truthy direct read stores the path into the session tier, so every
later call serves it without a second read.  Within one call, a path may still
be read once per occurrence in the batch. -/
theorem session_tier_no_reread
    (bulk : List String → Except String (List (String × String)))
    (readImage : String → Except String (Option String))
    (s : ImgState) (mods : List SkinRecord) (p : String) :
    ((∃ v, truthyGet s.cachedImageRefs p = some v) →
      p ∉ (loadModImages bulk readImage s mods).2) ∧
    (∀ w, p ∈ (loadModImages bulk readImage s mods).2 →
      readImage p = .ok (some w) → w ≠ "" →
      truthyGet (loadModImages bulk readImage s mods).1.cachedImageRefs p =
        some ("data:image/png;base64," ++ w)) := by
  by_cases hempty : (collectImages s.imageData s.cachedImageRefs mods [] []).2 = []
  · constructor
    · intro _ hmem
      simp only [loadModImages, if_pos hempty] at hmem
      exact absurd hmem (List.not_mem_nil p)
    · intro w hmem
      simp only [loadModImages, if_pos hempty] at hmem
      exact absurd hmem (List.not_mem_nil p)
  · have hlog : (loadModImages bulk readImage s mods).2 =
        (applyCachedImages (bulkResponse bulk (collectImages s.imageData s.cachedImageRefs mods [] []).2)
          (collectImages s.imageData s.cachedImageRefs mods [] []).1
          s.cachedImageRefs
          (collectImages s.imageData s.cachedImageRefs mods [] []).2).2.2 := by
      simp only [loadModImages, if_neg hempty]
      rw [loadRemaining_log]
      simp
    constructor
    · rintro ⟨v, hv⟩ hmem
      rw [hlog] at hmem
      have hmem2 := applyCachedImages_toLoad_subset p _ _ _ _ hmem
      rcases collectImages_toLoad_mem s.imageData s.cachedImageRefs p mods [] [] hmem2 with
        h | ⟨_, hc⟩
      · exact absurd h (List.not_mem_nil p)
      · rw [hc] at hv
        exact Option.noConfusion hv
    · intro w hmem hr hw
      rw [hlog] at hmem
      have hwrite := (loadRemaining_writes readImage p w hr hw _
        (applyCachedImages (bulkResponse bulk (collectImages s.imageData s.cachedImageRefs mods [] []).2)
          (collectImages s.imageData s.cachedImageRefs mods [] []).1
          s.cachedImageRefs
          (collectImages s.imageData s.cachedImageRefs mods [] []).2).1
        (applyCachedImages (bulkResponse bulk (collectImages s.imageData s.cachedImageRefs mods [] []).2)
          (collectImages s.imageData s.cachedImageRefs mods [] []).1
          s.cachedImageRefs
          (collectImages s.imageData s.cachedImageRefs mods [] []).2).2.1
        [] hmem).2
      have hfinal : mapGet (loadModImages bulk readImage s mods).1.cachedImageRefs p =
          some ("data:image/png;base64," ++ w) := by
        simp only [loadModImages, if_neg hempty]
        exact hwrite
      rw [truthyGet, hfinal]
      simp [dataPayload_ne_empty w]

theorem session_tier_no_reread_witness :
    "thumb-a" ∉ (loadModImages (fun _ => .ok []) (fun _ => .ok (some "XX"))
      { imageData := [], cachedImageRefs := [("thumb-a", "data:old")] }
      [skinThumb1]).2 :=
  (session_tier_no_reread (fun _ => .ok []) (fun _ => .ok (some "XX"))
    { imageData := [], cachedImageRefs := [("thumb-a", "data:old")] }
    [skinThumb1] "thumb-a").1 ⟨"data:old", by decide⟩

/-- C8: a failure confined to one tier or one key never fails the whole
resolution.  First, a failing (or absent) bulk-cache capability degrades to
zero hits: the run is identical to one whose bulk tier returns nothing, and
every collected path is still attempted via the direct tier.  Second — for
every bulk outcome, failing or successful — the direct-tier read log is
independent of the read oracle's answers, so a direct-read error for one path
never cancels the attempts for the remaining paths; and any logged path whose
own read succeeds truthily ends up resolved in both the result map and the
session tier, regardless of errors on the other paths. -/
theorem bulk_fail_open
    (bulk : List String → Except String (List (String × String)))
    (readImage : String → Except String (Option String))
    (s : ImgState) (mods : List SkinRecord) :
    (∀ e, bulk (collectImages s.imageData s.cachedImageRefs mods [] []).2 = .error e →
      loadModImages bulk readImage s mods =
        loadModImages (fun _ => .ok []) readImage s mods ∧
      (loadModImages bulk readImage s mods).2 =
        (collectImages s.imageData s.cachedImageRefs mods [] []).2) ∧
    (∀ readImage2 : String → Except String (Option String),
      (loadModImages bulk readImage s mods).2 =
        (loadModImages bulk readImage2 s mods).2) ∧
    (∀ q w, q ∈ (loadModImages bulk readImage s mods).2 →
      readImage q = .ok (some w) → w ≠ "" →
      mapGet (loadModImages bulk readImage s mods).1.imageData q =
        some ("data:image/png;base64," ++ w) ∧
      mapGet (loadModImages bulk readImage s mods).1.cachedImageRefs q =
        some ("data:image/png;base64," ++ w)) := by
  by_cases hempty : (collectImages s.imageData s.cachedImageRefs mods [] []).2 = []
  · refine ⟨?_, ?_, ?_⟩
    · intro e _
      constructor
      · simp only [loadModImages, if_pos hempty]
      · simp only [loadModImages, if_pos hempty]
        exact hempty.symm
    · intro readImage2
      simp only [loadModImages, if_pos hempty]
    · intro q w hmem _ _
      simp only [loadModImages, if_pos hempty] at hmem
      exact absurd hmem (List.not_mem_nil q)
  · refine ⟨?_, ?_, ?_⟩
    · intro e hbulk
      have hresp : bulkResponse bulk (collectImages s.imageData s.cachedImageRefs mods [] []).2 = [] :=
        bulkResponse_error _ _ _ hbulk
      have hresp2 : bulkResponse (fun _ => .ok ([] : List (String × String)))
          (collectImages s.imageData s.cachedImageRefs mods [] []).2 = [] := rfl
      constructor
      · simp only [loadModImages, if_neg hempty, hresp, hresp2]
      · simp only [loadModImages, if_neg hempty, hresp]
        rw [loadRemaining_log]
        simp [applyCachedImages]
    · intro readImage2
      simp only [loadModImages, if_neg hempty]
      rw [loadRemaining_log, loadRemaining_log]
    · intro q w hmem hr hw
      simp only [loadModImages, if_neg hempty] at hmem ⊢
      rw [loadRemaining_log] at hmem
      rw [List.nil_append] at hmem
      exact loadRemaining_writes readImage q w hr hw _ _ _ [] hmem

theorem bulk_fail_open_witness :
    loadModImages (fun _ => .error "cache unavailable") readFail1
      { imageData := [], cachedImageRefs := [] } [skinThumbB] =
      loadModImages (fun _ => .ok []) readFail1
        { imageData := [], cachedImageRefs := [] } [skinThumbB] ∧
    (loadModImages (fun _ => .ok []) readFail1
      { imageData := [], cachedImageRefs := [] } [skinThumb1, skinThumbB]).2 =
      (loadModImages (fun _ => .ok []) (fun _ => .error "all reads fail")
        { imageData := [], cachedImageRefs := [] } [skinThumb1, skinThumbB]).2 ∧
    mapGet (loadModImages (fun _ => .ok []) readFail1
      { imageData := [], cachedImageRefs := [] } [skinThumb1, skinThumbB]).1.imageData
      "thumb-b" = some ("data:image/png;base64," ++ "img-thumb-b") :=
  ⟨((bulk_fail_open (fun _ => .error "cache unavailable") readFail1
      { imageData := [], cachedImageRefs := [] } [skinThumbB]).1
      "cache unavailable" rfl).1,
   (bulk_fail_open (fun _ => .ok []) readFail1
      { imageData := [], cachedImageRefs := [] } [skinThumb1, skinThumbB]).2.1
      (fun _ => .error "all reads fail"),
   ((bulk_fail_open (fun _ => .ok []) readFail1
      { imageData := [], cachedImageRefs := [] } [skinThumb1, skinThumbB]).2.2
      "thumb-b" "img-thumb-b" (by decide) (by rfl) (by decide)).1⟩

/-- C10: provided the bulk-cache capability only answers about paths it was
asked for, a session-tier entry present before a resolve call is never
overwritten by that call: its binding — and hence every subsequent lookup — is
unchanged afterwards, because only paths absent from both tiers are fetched
and written. -/
theorem cache_entry_preserved
    (bulk : List String → Except String (List (String × String)))
    (readImage : String → Except String (Option String))
    (s : ImgState) (mods : List SkinRecord) (p v : String)
    (hsound : ∀ qs r, bulk qs = .ok r → ∀ kv ∈ r, kv.1 ∈ qs)
    (hv : truthyGet s.cachedImageRefs p = some v) :
    mapGet (loadModImages bulk readImage s mods).1.cachedImageRefs p =
      mapGet s.cachedImageRefs p ∧
    truthyGet (loadModImages bulk readImage s mods).1.cachedImageRefs p = some v := by
  have hnotin : p ∉ (collectImages s.imageData s.cachedImageRefs mods [] []).2 := by
    intro hmem
    rcases collectImages_toLoad_mem s.imageData s.cachedImageRefs p mods [] [] hmem with
      h | ⟨_, hc⟩
    · exact absurd h (List.not_mem_nil p)
    · rw [hc] at hv
      exact Option.noConfusion hv
  have hmain : mapGet (loadModImages bulk readImage s mods).1.cachedImageRefs p =
      mapGet s.cachedImageRefs p := by
    by_cases hempty : (collectImages s.imageData s.cachedImageRefs mods [] []).2 = []
    · simp only [loadModImages, if_pos hempty]
    · have hkeys : ∀ kv ∈ bulkResponse bulk (collectImages s.imageData s.cachedImageRefs mods [] []).2,
          kv.1 ≠ p := by
        intro kv hkv
        rcases hb : bulk (collectImages s.imageData s.cachedImageRefs mods [] []).2 with e | r
        · rw [bulkResponse_error _ _ _ hb] at hkv
          exact absurd hkv (List.not_mem_nil kv)
        · rw [bulkResponse_ok _ _ _ hb] at hkv
          intro hkp
          exact hnotin (hkp ▸ hsound _ _ hb kv hkv)
      have hnotin2 : p ∉ (applyCachedImages
          (bulkResponse bulk (collectImages s.imageData s.cachedImageRefs mods [] []).2)
          (collectImages s.imageData s.cachedImageRefs mods [] []).1
          s.cachedImageRefs
          (collectImages s.imageData s.cachedImageRefs mods [] []).2).2.2 := by
        intro hmem
        exact hnotin (applyCachedImages_toLoad_subset p _ _ _ _ hmem)
      simp only [loadModImages, if_neg hempty]
      rw [(loadRemaining_preserves readImage p _ _ _ [] hnotin2).2]
      rw [applyCachedImages_preserves p _ _ _ _ hkeys]
  refine ⟨hmain, ?_⟩
  rw [truthyGet, hmain]
  rw [truthyGet] at hv
  exact hv

theorem cache_entry_preserved_witness :
    mapGet (loadModImages (fun _ => .ok []) (fun _ => .ok (some "YY"))
      { imageData := [], cachedImageRefs := [("thumb-a", "data:old")] }
      [skinThumb1]).1.cachedImageRefs "thumb-a" =
      mapGet [("thumb-a", "data:old")] "thumb-a" ∧
    truthyGet (loadModImages (fun _ => .ok []) (fun _ => .ok (some "YY"))
      { imageData := [], cachedImageRefs := [("thumb-a", "data:old")] }
      [skinThumb1]).1.cachedImageRefs "thumb-a" = some "data:old" :=
  cache_entry_preserved (fun _ => .ok []) (fun _ => .ok (some "YY"))
    { imageData := [], cachedImageRefs := [("thumb-a", "data:old")] }
    [skinThumb1] "thumb-a" "data:old"
    (fun qs r h kv hkv => by
      injection h with h1
      rw [← h1] at hkv
      exact absurd hkv (List.not_mem_nil kv))
    (by decide)
